import Mathlib

/-!
Verification development for the trending-service fetch orchestration and
retry engine.  The definitions below are a shallow embedding of the Python
sources:

* src/src/utils/retry_manager.py   (RetryConfig, RetryTask, RetryManager)
* src/src/db/fetch_failure_dao.py  (FetchFailureDAO over the fetch_failures table)
* src/src/db/trending_dao.py       (TrendingDAO.save_items / refresh_items)
* src/src/scheduler.py             (TaskScheduler / TrendingTaskScheduler)

Modelling conventions:
* wall-clock instants are Nat (seconds); calendar days are Nat day indexes;
* Python dicts keyed by source name are association lists that keep the
  insertion order, updated in place like dict assignment;
* a zero-argument fetcher is its (deterministic) outcome for the period under
  study: an Except value, error e standing for a raised exception with
  message e;
* SQLite tables are Lean lists of row structures in rowid order.
-/

/-- Lookup in an insertion-ordered association list (Python dict read). -/
def alGet {α : Type} : List (String × α) → String → Option α
  | [], _ => none
  | p :: rest, k => if p.1 == k then some p.2 else alGet rest k

/-- Update in an insertion-ordered association list (Python dict assignment):
an existing key keeps its position, a new key is appended at the end. -/
def alSet {α : Type} (l : List (String × α)) (k : String) (v : α) : List (String × α) :=
  if l.any (fun p => p.1 == k) then
    l.map (fun p => if p.1 == k then (k, v) else p)
  else
    l ++ [(k, v)]

/-- Deletion from an association list (Python del d[k]). -/
def alDel {α : Type} (l : List (String × α)) (k : String) : List (String × α) :=
  l.filter (fun p => p.1 != k)

/-! ## Retry manager data model (src/src/utils/retry_manager.py) -/

/-- FetchStatus enum (retry_manager.py lines 17-22). -/
inductive FetchStatus
  | pending
  | success
  | failed
  | retrying
deriving Repr, DecidableEq

/-- FetchResult dataclass (retry_manager.py lines 25-34). -/
structure FetchResult where
  source : String
  success : Bool
  item_count : Nat
  error_message : Option String
  timestamp : Nat
  retry_count : Nat
  status : FetchStatus
deriving Repr, DecidableEq

/-- RetryConfig dataclass (retry_manager.py lines 49-55).  The Python
exponential_base is the float 2.0; for the configurations used by the
service (integer base 2) the float computation 60 * 2.0 ** k is exact until
far past the max_delay cap, and min(int(delay), max_delay) coincides with
the Nat expression below for every k, so the base is carried as a Nat. -/
structure RetryConfig where
  max_retries : Nat := 3
  base_delay : Nat := 60
  max_delay : Nat := 300
  exponential_base : Nat := 2
deriving Repr, DecidableEq

/-- RetryConfig.calculate_delay (retry_manager.py lines 57-72):
delay = base_delay * exponential_base ** retry_count, capped at max_delay. -/
def RetryConfig.calculate_delay (c : RetryConfig) (retry_count : Nat) : Nat :=
  min (c.base_delay * c.exponential_base ^ retry_count) c.max_delay

/-- The RetryConfig built by TrendingTaskScheduler (scheduler.py lines 175-180). -/
def schedulerRetryConfig : RetryConfig :=
  { max_retries := 3, base_delay := 60, max_delay := 300, exponential_base := 2 }

/-- RetryTask dataclass (retry_manager.py lines 75-86). -/
structure RetryTask where
  source : String
  retry_count : Nat
  next_retry_at : Nat
  error_message : Option String
  created_at : Nat
deriving Repr, DecidableEq

/-- RetryTask.should_retry_now (retry_manager.py lines 84-86):
datetime.now() >= next_retry_at. -/
def RetryTask.should_retry_now (t : RetryTask) (now : Nat) : Bool :=
  t.next_retry_at ≤ now

/-- Mutable state of RetryManager (retry_manager.py lines 105-121): the
config, the retry queue (dict source -> RetryTask) and the latest-results
map (dict source -> FetchResult).  The fetcher registry is passed to the
operations separately, as a Fetchers value. -/
structure RetryManager where
  config : RetryConfig
  retry_queue : List (String × RetryTask) := []
  results : List (String × FetchResult) := []
deriving Repr, DecidableEq

/-! ## Collected items and the trending_items table (src/src/db) -/

/-- TrendingItem (src/src/db/models.py lines 11-23), restricted to the
fields the claims depend on.  category, author, description, hot_score and
extra are inert payload columns copied verbatim on insert; keywords is
recomputed by extract_keywords_for_items (analytics/keywords.py lines
299-315), which assigns item.keywords in place and returns the same list,
leaving every modelled field unchanged.  fetched_day is the calendar day of
fetched_at; none models a missing fetched_at, which defaults to now at
insert time (trending_dao.py line 112). -/
structure TrendingItem where
  source : String
  title : String
  url : String
  fetched_day : Option Nat
deriving Repr, DecidableEq

/-- One row of the trending_items table (database.py lines 33-48).  The
generated column fetched_date = DATE(fetched_at) is the day field; the
UNIQUE(source, url, fetched_date) constraint is enforced by insert_item. -/
structure StoredRow where
  source : String
  title : String
  url : String
  day : Nat
deriving Repr, DecidableEq

/-- The trending_items table, in rowid order. -/
abbrev TrendingDB := List StoredRow

/-- Registered fetchers (retry_manager.py self._fetchers): each source is
bound to the outcome of invoking its zero-argument fetcher, error e
standing for a raised exception with message e. -/
abbrev Fetchers := List (String × Except String (List TrendingItem))

/-! ## Failure ledger (src/src/db/fetch_failure_dao.py) -/

/-- One row of the fetch_failures table (fetch_failure_dao.py lines 59-73). -/
structure FetchFailureRow where
  id : Nat
  source : String
  error_message : Option String
  retry_count : Nat
  last_try_at : Option Nat
  next_retry_at : Option Nat
  status : String
  created_at : Nat
  updated_at : Nat
deriving Repr, DecidableEq

/-- The fetch_failures table in rowid order, together with the next
AUTOINCREMENT id. -/
structure FailureDB where
  rows : List FetchFailureRow := []
  next_id : Nat := 1
deriving Repr, DecidableEq

/-- FetchFailureDAO.get_by_source (fetch_failure_dao.py lines 185-206):
SELECT the row for the source with the greatest created_at (LIMIT 1).
Among rows with equal created_at SQLite leaves the choice unspecified; the
fold keeps the later row in scan order.  In every state reachable through
save_failure there is at most one row per source, so the tie never arises. -/
def get_by_source (db : FailureDB) (source : String) : Option FetchFailureRow :=
  (db.rows.filter (fun r => r.source == source)).foldl
    (fun acc r =>
      match acc with
      | none => some r
      | some b => if b.created_at ≤ r.created_at then some r else some b)
    none

/-- FetchFailureDAO.save_failure (fetch_failure_dao.py lines 89-145).  When
get_by_source finds a row (of any status), the UPDATE branch rewrites only
rows with source = ? AND status = pending and returns the existing id; when
no row exists at all, the INSERT branch appends a fresh pending row.
Database.execute (database.py lines 124-128) returns cursor.rowcount, an
int, so the INSERT branch commits the row and then raises AttributeError at
cursor.lastrowid; the Except component records that raise, which happens
after the database effect. -/
def save_failure (db : FailureDB) (now : Nat) (source : String)
    (error_message : Option String) (retry_count : Nat)
    (next_retry_at : Option Nat) : FailureDB × Except String Nat :=
  match get_by_source db source with
  | some existing =>
    ({ db with rows := db.rows.map (fun r =>
        if r.source == source && r.status == "pending" then
          { r with
              error_message := error_message
              retry_count := retry_count
              last_try_at := some now
              next_retry_at := next_retry_at
              status := "pending"
              updated_at := now }
        else r) },
     Except.ok existing.id)
  | none =>
    ({ rows := db.rows ++ [{
          id := db.next_id
          source := source
          error_message := error_message
          retry_count := retry_count
          last_try_at := some now
          next_retry_at := next_retry_at
          status := "pending"
          created_at := now
          updated_at := now }]
       next_id := db.next_id + 1 },
     Except.error "AttributeError: int object has no attribute lastrowid")

/-- FetchFailureDAO.mark_success (fetch_failure_dao.py lines 147-164): flip
the pending row for the source to success.  The UPDATE commits; the final
cursor.rowcount read then raises AttributeError because Database.execute
already returned an int, recorded in the Except component. -/
def mark_success (db : FailureDB) (now : Nat) (source : String) :
    FailureDB × Except String Bool :=
  ({ db with rows := db.rows.map (fun r =>
      if r.source == source && r.status == "pending" then
        { r with status := "success", updated_at := now }
      else r) },
   Except.error "AttributeError: int object has no attribute rowcount")

/-- FetchFailureDAO.mark_failed (fetch_failure_dao.py lines 166-183): flip
the pending row for the source to failed.  Defined by the DAO but never
invoked anywhere in the repository.  Same trailing AttributeError as
mark_success. -/
def mark_failed (db : FailureDB) (now : Nat) (source : String) :
    FailureDB × Except String Bool :=
  ({ db with rows := db.rows.map (fun r =>
      if r.source == source && r.status == "pending" then
        { r with status := "failed", updated_at := now }
      else r) },
   Except.error "AttributeError: int object has no attribute rowcount")

/-- Names the module fetch_failure_dao.py binds from the datetime module:
line 8 reads from datetime import datetime, and nothing else in the module
brings timedelta into scope. -/
def fetchFailureDaoDatetimeImports : List String := ["datetime"]

/-- FetchFailureDAO.delete_old_failures (fetch_failure_dao.py lines
280-295).  The body first evaluates datetime.now() - timedelta(days=days);
the name timedelta is not bound in the module (line 8 imports only
datetime), so the call raises NameError before the DELETE statement runs.
The guarded branch carries the documented behaviour (purge rows of any
status with updated_at older than the cutoff, return the deleted count)
that would apply if the import existed. -/
def delete_old_failures (db : FailureDB) (now : Nat) (days : Nat) :
    Except String (FailureDB × Nat) :=
  if fetchFailureDaoDatetimeImports.contains "timedelta" then
    let cutoff := now - days * 86400
    let kept := db.rows.filter (fun r => ¬ (r.updated_at < cutoff))
    Except.ok ({ db with rows := kept }, db.rows.length - kept.length)
  else
    Except.error "NameError: name timedelta is not defined"

/-- Rows of the ledger for one source. -/
def rowsFor (db : FailureDB) (source : String) : List FetchFailureRow :=
  db.rows.filter (fun r => r.source == source)

/-- Count of pending rows for one source:
count(fetch_failures WHERE source = S AND status = pending). -/
def pendingCount (db : FailureDB) (source : String) : Nat :=
  (db.rows.filter (fun r => r.source == source && r.status == "pending")).length

/-! ## Combined scheduler state and the retry loop
(src/src/utils/retry_manager.py with src/src/scheduler.py) -/

/-- In-memory retry manager state together with the durable failure ledger
it persists into through the scheduler callback. -/
structure SchedSt where
  mgr : RetryManager
  fdb : FailureDB
deriving Repr, DecidableEq

/-- TrendingTaskScheduler._persist_fetch_result (scheduler.py lines
217-238), the persistence callback handed to the retry manager: on success
mark_success, on failure save_failure with next_retry_at = now + delay when
retry_count < max_retries and NULL otherwise.  The wrapping try/except
swallows the AttributeError the DAO raises after committing, so only the
database effect remains. -/
def persist_fetch_result (cfg : RetryConfig) (db : FailureDB) (now : Nat)
    (r : FetchResult) : FailureDB :=
  if r.success then
    (mark_success db now r.source).1
  else
    let next_retry : Option Nat :=
      if r.retry_count < cfg.max_retries then
        some (now + cfg.calculate_delay r.retry_count)
      else
        none
    (save_failure db now r.source r.error_message r.retry_count next_retry).1

/-- RetryManager._add_to_retry_queue (retry_manager.py lines 165-186):
enqueue or overwrite the RetryTask for the source with
next_retry_at = now + calculate_delay(retry_count), the delay counted from
the moment the failing result is recorded. -/
def add_to_retry_queue (m : RetryManager) (now : Nat) (r : FetchResult) :
    RetryManager :=
  let delay := m.config.calculate_delay r.retry_count
  let task : RetryTask :=
    { source := r.source
      retry_count := r.retry_count
      next_retry_at := now + delay
      error_message := r.error_message
      created_at := now }
  { m with retry_queue := alSet m.retry_queue r.source task }

/-- RetryManager.record_result (retry_manager.py lines 144-163) combined
with the persistence callback the scheduler sets at start-up: store the
latest result, enqueue a RetryTask when the result failed with
retry_count < max_retries, then persist (exceptions from the callback are
caught and logged). -/
def record_result (st : SchedSt) (now : Nat) (r : FetchResult) : SchedSt :=
  let m1 : RetryManager := { st.mgr with results := alSet st.mgr.results r.source r }
  let m2 : RetryManager :=
    if !r.success && r.retry_count < st.mgr.config.max_retries then
      add_to_retry_queue m1 now r
    else
      m1
  { mgr := m2, fdb := persist_fetch_result st.mgr.config st.fdb now r }

/-- RetryManager._get_retry_count (retry_manager.py lines 272-277). -/
def get_retry_count (m : RetryManager) (source : String) : Nat :=
  match alGet m.results source with
  | some r => r.retry_count
  | none => 0

/-- RetryManager._retry_source (retry_manager.py lines 214-270): for a
registered source, drop its RetryTask, invoke the fetcher, and build the
new FetchResult — on a normal return success = (len(items) > 0) with
status SUCCESS and the previous retry_count; on a raise success = False
with status PENDING and retry_count incremented — then record_result. -/
def retry_source (fetchers : Fetchers) (st : SchedSt) (now : Nat)
    (source : String) : SchedSt × Option FetchResult :=
  match alGet fetchers source with
  | none => (st, none)
  | some outcome =>
    let st1 : SchedSt :=
      { st with mgr := { st.mgr with retry_queue := alDel st.mgr.retry_queue source } }
    let prev := get_retry_count st1.mgr source
    let result : FetchResult :=
      match outcome with
      | Except.ok items =>
        { source := source
          success := decide (0 < items.length)
          item_count := items.length
          error_message := none
          timestamp := now
          retry_count := prev
          status := FetchStatus.success }
      | Except.error e =>
        { source := source
          success := false
          item_count := 0
          error_message := some e
          timestamp := now
          retry_count := prev + 1
          status := FetchStatus.pending }
    (record_result st1 now result, some result)

/-- RetryManager.process_retries (retry_manager.py lines 188-212): snapshot
the due sources (should_retry_now), then retry each in queue order. -/
def process_retries (fetchers : Fetchers) (st : SchedSt) (now : Nat) :
    SchedSt × List FetchResult :=
  let due := (st.mgr.retry_queue.filter
      (fun p => p.2.should_retry_now now)).map (fun p => p.1)
  due.foldl
    (fun acc s =>
      let step := retry_source fetchers acc.1 now s
      (step.1, acc.2 ++ step.2.toList))
    (st, [])

/-- RetryManager.force_retry (retry_manager.py lines 319-330): immediately
retry the source through _retry_source, with no due-time check. -/
def force_retry (fetchers : Fetchers) (st : SchedSt) (now : Nat)
    (source : String) : SchedSt × Option FetchResult :=
  retry_source fetchers st now source

/-! ## Trending storage (src/src/db/trending_dao.py) -/

/-- Key collision for the UNIQUE(source, url, fetched_date) constraint. -/
def keyMatch (source url : String) (day : Nat) (r : StoredRow) : Bool :=
  r.source == source && r.url == url && r.day == day

/-- One INSERT inside TrendingDAO.refresh_items (trending_dao.py lines
96-118): the row is appended unless the unique key already exists, in which
case sqlite3 raises IntegrityError, which the per-item except swallows
(continue).  fetched_at defaults to now, i.e. the current day. -/
def insert_item (today : Nat) (db : TrendingDB) (it : TrendingItem) : TrendingDB :=
  let day := it.fetched_day.getD today
  if db.any (keyMatch it.source it.url day) then
    db
  else
    db ++ [{ source := it.source, title := it.title, url := it.url, day := day }]

/-- The per-source insert loop of refresh_items. -/
def insert_all (today : Nat) (db : TrendingDB) (items : List TrendingItem) : TrendingDB :=
  items.foldl (insert_item today) db

/-- Source names in first-appearance order, as produced by grouping the
items into a defaultdict (trending_dao.py lines 79-82): a name is appended
the first time it is seen and ignored afterwards. -/
def firstDedup (l : List String) : List String :=
  l.foldl (fun acc s => if s ∈ acc then acc else acc ++ [s]) []

/-- TrendingDAO.refresh_items (trending_dao.py lines 61-124): an empty item
list returns 0 at once; otherwise the items are grouped by source and, for
each source in first-appearance order, the rows with that source and
DATE(fetched_at) = today are deleted, then the items of the source are
inserted one by one.  The count of successful inserts is returned. -/
def refresh_items (db : TrendingDB) (items : List TrendingItem) (today : Nat) :
    TrendingDB × Nat :=
  if items.isEmpty then
    (db, 0)
  else
    (firstDedup (items.map (fun it => it.source))).foldl
      (fun acc s =>
        let cleared : TrendingDB :=
          acc.1.filter (fun r => !(r.source == s && r.day == today))
        let source_items := items.filter (fun it => it.source == s)
        let grown := insert_all today cleared source_items
        (grown, acc.2 + (grown.length - cleared.length)))
      (db, 0)

/-- TrendingDAO.save_items (trending_dao.py lines 19-59): INSERT OR REPLACE
keyed on (source, url, fetched_date) — a conflicting row is deleted and the
new row appended with a fresh rowid. -/
def save_items (db : TrendingDB) (items : List TrendingItem) (today : Nat) :
    TrendingDB × Nat :=
  (items.foldl
    (fun acc it =>
      let day := it.fetched_day.getD today
      acc.filter (fun r => !(keyMatch it.source it.url day r)) ++
        [{ source := it.source, title := it.title, url := it.url, day := day }])
    db,
   items.length)

/-! ## Scheduler fetch paths (src/src/scheduler.py) -/

/-- TrendingTaskScheduler._fetch_source (scheduler.py lines 405-444): none
when the source is unregistered; on a normal fetcher return a SUCCESS
result with success = (len(items) > 0); on a raise the exception is caught
at the point of invocation and converted into a PENDING result with
success = False carrying the message. -/
def fetch_source (fetchers : Fetchers) (now : Nat) (source : String) :
    Option FetchResult :=
  match alGet fetchers source with
  | none => none
  | some (Except.ok items) =>
    some { source := source
           success := decide (0 < items.length)
           item_count := items.length
           error_message := none
           timestamp := now
           retry_count := 0
           status := FetchStatus.success }
  | some (Except.error e) =>
    some { source := source
           success := false
           item_count := 0
           error_message := some e
           timestamp := now
           retry_count := 0
           status := FetchStatus.pending }

/-- TrendingTaskScheduler._get_items_from_result (scheduler.py lines
446-454): invoke the fetcher again; an unregistered source or a raise
yields the empty list. -/
def get_items_from_result (fetchers : Fetchers) (source : String) :
    List TrendingItem :=
  match alGet fetchers source with
  | some (Except.ok items) => items
  | _ => []

/-- TrendingTaskScheduler._fetch_all_trending (scheduler.py lines 317-403)
for an ordered list of enabled sources (the code enumerates the configured
sources github, github_ai, bilibili, arxiv, hackernews, zhihu, weibo,
douyin, each guarded by its enabled flag): fetch every source, gather the
items of the successful ones in order, refresh the store once when any
items were gathered, then record every produced result. -/
def fetch_all_trending (fetchers : Fetchers) (sources : List String)
    (st : SchedSt) (tdb : TrendingDB) (today now : Nat) : SchedSt × TrendingDB :=
  let all_items : List TrendingItem :=
    sources.foldl
      (fun acc s =>
        match fetch_source fetchers now s with
        | some r => if r.success then acc ++ get_items_from_result fetchers s else acc
        | none => acc)
      []
  let tdb2 := if all_items.isEmpty then tdb else (refresh_items tdb all_items today).1
  let st2 :=
    sources.foldl
      (fun acc s =>
        match fetch_source fetchers now s with
        | some r => record_result acc now r
        | none => acc)
      st
  (st2, tdb2)

/-- TrendingTaskScheduler.force_retry_source (scheduler.py lines 599-627):
force_retry through the retry manager; when the forced result exists and
succeeded, re-fetch the items and save them (save_items), returning True;
otherwise return False. -/
def force_retry_source (fetchers : Fetchers) (st : SchedSt) (tdb : TrendingDB)
    (now today : Nat) (source : String) : SchedSt × TrendingDB × Bool :=
  let fr := force_retry fetchers st now source
  match fr.2 with
  | some r =>
    if r.success then
      let items := get_items_from_result fetchers source
      let tdb2 := if items.isEmpty then tdb else (save_items tdb items today).1
      (fr.1, tdb2, true)
    else
      (fr.1, tdb, false)
  | none => (fr.1, tdb, false)

/-! ## Task scheduling loop (src/src/scheduler.py, TaskScheduler) -/

/-- A wall-clock instant as the scheduler trigger sees it: calendar day
index, hour and minute. -/
structure SimpleTime where
  day : Nat
  hour : Nat
  minute : Nat
deriving Repr, DecidableEq

/-- One entry of TaskScheduler.tasks (scheduler.py lines 47-63).  schedule
is the parsed HH:MM pair; none models a schedule string without a colon or
one strptime rejects, for which _should_run always answers False. -/
structure SchedTask where
  name : String
  schedule : Option (Nat × Nat)
  enabled : Bool
  last_run : Option SimpleTime
deriving Repr, DecidableEq

/-- TaskScheduler._should_run (scheduler.py lines 131-151): the current
hour and minute equal the parsed target and the task has not run today
(last_run is None or its date differs from today). -/
def should_run (t : SchedTask) (now : SimpleTime) : Bool :=
  match t.schedule with
  | some (h, m) =>
    now.hour == h && now.minute == m &&
      (match t.last_run with
       | none => true
       | some lr => lr.day != now.day)
  | none => false

/-- One task of a loop iteration of _run_scheduler (scheduler.py lines
287-297, identical in the base class at lines 109-120): when enabled and
due, invoke the work function; last_run = now is assigned on the line after
the call inside the try block, so it is skipped when the call raises, and
the exception is caught by the per-task except.  The outcome argument is
the work function behaviour at this invocation; the Bool reports whether
the task was invoked. -/
def tick_task (t : SchedTask) (now : SimpleTime) (outcome : Except String Unit) :
    SchedTask × Bool :=
  if t.enabled && should_run t now then
    match outcome with
    | Except.ok _ => ({ t with last_run := some now }, true)
    | Except.error _ => (t, true)
  else
    (t, false)

/-- The task-dispatch part of one _run_scheduler iteration over the whole
task dict: every task is examined in order, each inside its own try, so a
raising work function never stops the loop or the remaining tasks of the
same tick.  Returns the updated tasks and the names of the invoked ones. -/
def run_tick (tasks : List SchedTask) (now : SimpleTime)
    (outcome : String → Except String Unit) : List SchedTask × List String :=
  (tasks.map (fun t => (tick_task t now (outcome t.name)).1),
   (tasks.filter (fun t => (tick_task t now (outcome t.name)).2)).map
     (fun t => t.name))

/-! ## Concrete scenarios referenced by the theorems -/

/-- The stored row an inserted item produces (refresh path, day resolved). -/
def mkRow (today : Nat) (it : TrendingItem) : StoredRow :=
  { source := it.source, title := it.title, url := it.url,
    day := it.fetched_day.getD today }

/-- Arguments of one save_failure call (source fixed separately). -/
structure FailureCall where
  now : Nat
  err : Option String
  rc : Nat
  nra : Option Nat
deriving Repr, DecidableEq

/-- Consecutive save_failure calls for one source, applied left to right;
the AttributeError the DAO raises after committing an INSERT is caught by
the caller (_persist_fetch_result), so only the database effect remains. -/
def apply_failures (db : FailureDB) (s : String) (calls : List FailureCall) : FailureDB :=
  calls.foldl (fun acc c => (save_failure acc c.now s c.err c.rc c.nra).1) db

/-- A source whose fetcher raises on every invocation. -/
def alwaysFail : Fetchers := [("github", Except.error "boom")]

/-- Fresh scheduler state: the retry config built in scheduler.py lines
175-180, empty queue, empty results, empty ledger. -/
def freshSt : SchedSt := { mgr := { config := schedulerRetryConfig }, fdb := {} }

/-- Exhaustion run, failure 1: the scheduled cycle at time 0 fetches the
perpetually failing source. -/
def c1_s1 : SchedSt := (fetch_all_trending alwaysFail ["github"] freshSt [] 0 0).1

/-- Exhaustion run, failure 2: the retry due at 0 + 60 fails again. -/
def c1_s2 : SchedSt := (process_retries alwaysFail c1_s1 60).1

/-- Exhaustion run, failure 3: the retry due at 60 + 120 fails again. -/
def c1_s3 : SchedSt := (process_retries alwaysFail c1_s2 180).1

/-- Exhaustion run, failure 4: the retry due at 180 + 240 fails again,
reaching retry_count = max_retries = 3. -/
def c1_s4 : SchedSt := (process_retries alwaysFail c1_s3 420).1

/-- A source registered with a fetcher that returns zero items without
raising. -/
def emptyFetcher (s : String) : Fetchers := [(s, Except.ok [])]

/-- n retry attempts against an empty-returning fetcher, the i-th at time
times i. -/
def empty_fetch_iter (s : String) (times : Nat → Nat) : Nat → SchedSt → SchedSt
  | 0, st => st
  | n + 1, st =>
    (retry_source (emptyFetcher s) (empty_fetch_iter s times n st) (times n) s).1

/-- Daily task as configured for fetch_trending, before its first run. -/
def c3_task : SchedTask :=
  { name := "fetch_trending", schedule := some (8, 0), enabled := true, last_run := none }

/-- A tick falling exactly on the scheduled minute. -/
def c3_now : SimpleTime := { day := 0, hour := 8, minute := 0 }

/-- Items of a first refresh call. -/
def c4_itemsA : List TrendingItem :=
  [{ source := "github", title := "a1", url := "u1", fetched_day := some 5 }]

/-- Items of a second refresh call for the same source and day. -/
def c4_itemsB : List TrendingItem :=
  [{ source := "github", title := "b1", url := "u2", fetched_day := some 5 },
   { source := "github", title := "b2", url := "u3", fetched_day := none }]

/-- A failing result as recorded for the first failure of a source. -/
def c5_r : FetchResult :=
  { source := "github", success := false, item_count := 0,
    error_message := some "boom", timestamp := 1000, retry_count := 1,
    status := FetchStatus.pending }

/-- Two consecutive failures for one source. -/
def c2_calls : List FailureCall :=
  [{ now := 0, err := some "e1", rc := 0, nra := some 60 },
   { now := 60, err := some "e2", rc := 1, nra := some 180 }]

/-- A source registered with a fetcher that returns two items. -/
def okFetcher : Fetchers := [("zhihu", Except.ok c4_itemsB)]

/-- The latest recorded result of a source that already failed once. -/
def c9_r : FetchResult :=
  { source := "zhihu", success := false, item_count := 0,
    error_message := some "e", timestamp := 0, retry_count := 1,
    status := FetchStatus.pending }

/-- State with one prior failure recorded for zhihu and its RetryTask queued. -/
def c9_st : SchedSt :=
  { mgr := { config := schedulerRetryConfig,
             retry_queue := [("zhihu",
               { source := "zhihu", retry_count := 1, next_retry_at := 60,
                 error_message := some "e", created_at := 0 })],
             results := [("zhihu", c9_r)] },
    fdb := {} }

/-- Ledger after a failure episode for zhihu ended in success: one
terminal row, no pending row. -/
def c2_termdb : FailureDB :=
  (mark_success ((save_failure {} 0 "zhihu" (some "e1") 0 (some 60)).1) 10 "zhihu").1

/-- Items a successful zhihu fetch returns during one cycle. -/
def c6_items : List TrendingItem :=
  [{ source := "zhihu", title := "z1", url := "zu1", fetched_day := none }]

/-- Prior store contents: an earlier github snapshot from day 4. -/
def c6_tdb : TrendingDB :=
  [{ source := "github", title := "g", url := "gu", day := 4 }]

/-! ## Helper lemmas -/

theorem alGet_alSet_self {α : Type} (l : List (String × α)) (k : String) (v : α) :
    alGet (alSet l k v) k = some v := by
  induction l with
  | nil => simp [alGet, alSet]
  | cons p rest ih =>
    by_cases hp : (p.1 == k) = true
    · have hpe : p.1 = k := by simpa using hp
      simp [alSet, alGet, List.any_cons, hp, hpe]
    · by_cases ha : (rest.any fun q => q.1 == k) = true
      · have h2 := ih
        rw [alSet, if_pos ha] at h2
        rw [alSet, if_pos (by simp [List.any_cons, ha])]
        simpa [alGet, hp] using h2
      · have h2 := ih
        rw [alSet, if_neg (by simp [ha])] at h2
        rw [alSet, if_neg (by simp [List.any_cons, ha, hp])]
        simpa [alGet, hp] using h2

theorem alGet_alDel_self {α : Type} (l : List (String × α)) (k : String) :
    alGet (alDel l k) k = none := by
  induction l with
  | nil => simp [alGet, alDel]
  | cons p rest ih =>
    by_cases hp : (p.1 == k) = true
    · rw [alDel, List.filter_cons, if_neg (by simp [bne, hp])]
      exact ih
    · rw [alDel, List.filter_cons, if_pos (by simp [bne, hp])]
      simpa [alGet, hp] using ih


theorem record_result_results (st : SchedSt) (now : Nat) (r : FetchResult) :
    (record_result st now r).mgr.results = alSet st.mgr.results r.source r := by
  unfold record_result add_to_retry_queue
  split <;> rfl

theorem record_result_config (st : SchedSt) (now : Nat) (r : FetchResult) :
    (record_result st now r).mgr.config = st.mgr.config := by
  unfold record_result add_to_retry_queue
  split <;> rfl

theorem record_result_queue_of_fail (st : SchedSt) (now : Nat) (r : FetchResult)
    (hf : r.success = false) (hlt : r.retry_count < st.mgr.config.max_retries) :
    (record_result st now r).mgr.retry_queue =
      alSet st.mgr.retry_queue r.source
        { source := r.source, retry_count := r.retry_count,
          next_retry_at := now + st.mgr.config.calculate_delay r.retry_count,
          error_message := r.error_message, created_at := now } := by
  unfold record_result add_to_retry_queue
  simp [hf, hlt]

theorem record_result_queue_of_success (st : SchedSt) (now : Nat) (r : FetchResult)
    (hs : r.success = true) :
    (record_result st now r).mgr.retry_queue = st.mgr.retry_queue := by
  unfold record_result add_to_retry_queue
  simp [hs]

theorem record_result_queue_of_exhausted (st : SchedSt) (now : Nat) (r : FetchResult)
    (hge : st.mgr.config.max_retries ≤ r.retry_count) :
    (record_result st now r).mgr.retry_queue = st.mgr.retry_queue := by
  unfold record_result add_to_retry_queue
  simp [Nat.not_lt.mpr hge]

/-! ## Claim theorems -/

/-- Claim C5 (confirmed): with base_delay 60, max_delay 300 and backoff
base 2.0, the delay computed for the k-th consecutive failure is
min(60 * 2^k, 300) — the sequence 60, 120, 240, 300, 300, … — and the
RetryTask enqueued when the failing result is recorded is due at
now + delay, where now is the time of the failing attempt being recorded,
not a time counted from the first failure. -/
theorem C5_backoff_formula (k now : Nat) (st : SchedSt) (r : FetchResult)
    (hcfg : st.mgr.config = schedulerRetryConfig)
    (hfail : r.success = false) (hk : r.retry_count = k) (hlt : k < 3) :
    schedulerRetryConfig.calculate_delay k = min (60 * 2 ^ k) 300 ∧
    (List.range 5).map schedulerRetryConfig.calculate_delay = [60, 120, 240, 300, 300] ∧
    alGet (record_result st now r).mgr.retry_queue r.source =
      some { source := r.source, retry_count := k,
             next_retry_at := now + min (60 * 2 ^ k) 300,
             error_message := r.error_message, created_at := now } := by
  refine ⟨rfl, by decide, ?_⟩
  rw [record_result_queue_of_fail st now r hfail
    (by rw [hk, hcfg]; simpa [schedulerRetryConfig] using hlt)]
  rw [alGet_alSet_self, hk, hcfg]
  simp [schedulerRetryConfig, RetryConfig.calculate_delay]

/-- Witness for C5 at k = 1, now = 1000. -/
theorem C5_backoff_formula_witness :
    schedulerRetryConfig.calculate_delay 1 = min (60 * 2 ^ 1) 300 ∧
    (List.range 5).map schedulerRetryConfig.calculate_delay = [60, 120, 240, 300, 300] ∧
    alGet (record_result freshSt 1000 c5_r).mgr.retry_queue c5_r.source =
      some { source := c5_r.source, retry_count := 1,
             next_retry_at := 1000 + min (60 * 2 ^ 1) 300,
             error_message := c5_r.error_message, created_at := 1000 } :=
  C5_backoff_formula 1 1000 freshSt c5_r rfl rfl rfl (by decide)

/-- Claim C10 (code bug): delete_old_failures never reaches its DELETE
statement — fetch_failure_dao.py imports only datetime from the datetime
module, so evaluating timedelta(days=days) raises NameError for every
database state and retention window, instead of deleting the rows older
than the cutoff and returning their count. -/
theorem C10_delete_old_failures_raises (db : FailureDB) (now days : Nat) :
    delete_old_failures db now days =
      Except.error "NameError: name timedelta is not defined" := rfl

/-- Claim C3 counterexample: last_run is assigned on the line after the
work call inside the try block, so a raising invocation leaves last_run
untouched; with the fetch_trending task at its scheduled minute, a first
tick whose work function raises keeps last_run = none and a second tick in
the same minute invokes the work function again — two attempts in one
calendar day, not at most one. -/
theorem C3_counterexample :
    (tick_task c3_task c3_now (Except.error "boom")).2 = true ∧
    (tick_task c3_task c3_now (Except.error "boom")).1 = c3_task ∧
    (tick_task (tick_task c3_task c3_now (Except.error "boom")).1 c3_now
      (Except.error "boom")).2 = true := by decide

/-- Claim C3 (amended): the scheduler loop stamps last_run = now only when
the work function returns normally; an exception skips the assignment.
Hence for an invocation that returned normally, any tick on the same
calendar day — the same matching minute included — does not invoke the
task again; after a raising invocation the task stays eligible and is
re-invoked. -/
theorem C3_amended_at_most_once (t : SchedTask) (now1 now2 : SimpleTime)
    (o : Except String Unit)
    (hinv : (tick_task t now1 (Except.ok ())).2 = true)
    (hday : now2.day = now1.day) :
    (tick_task t now1 (Except.ok ())).1.last_run = some now1 ∧
    (tick_task (tick_task t now1 (Except.ok ())).1 now2 o).2 = false := by
  by_cases hc : (t.enabled && should_run t now1) = true
  · have h1 : (tick_task t now1 (Except.ok ())).1 = { t with last_run := some now1 } := by
      unfold tick_task
      rw [if_pos hc]
    refine ⟨by rw [h1], ?_⟩
    rw [h1]
    have hsr := hc
    rw [Bool.and_eq_true] at hsr
    unfold should_run at hsr
    match hsch : t.schedule with
    | none => rw [hsch] at hsr; simp at hsr
    | some (h, m) =>
      unfold tick_task
      rw [if_neg]
      rw [Bool.and_eq_true]
      intro hcon
      have h2 := hcon.2
      unfold should_run at h2
      simp only [hsch] at h2
      rw [Bool.and_eq_true, Bool.and_eq_true] at h2
      have h3 := h2.2
      simp only [bne_iff_ne, ne_eq] at h3
      exact h3 hday.symm
  · unfold tick_task at hinv
    rw [if_neg hc] at hinv
    simp at hinv

/-- Witness for the amended C3 at the concrete task and minute. -/
theorem C3_amended_at_most_once_witness :
    (tick_task c3_task c3_now (Except.ok ())).1.last_run = some c3_now ∧
    (tick_task (tick_task c3_task c3_now (Except.ok ())).1 c3_now
      (Except.error "boom")).2 = false :=
  C3_amended_at_most_once c3_task c3_now c3_now (Except.error "boom")
    (by decide) rfl

/-- Claim C1 (code bug): with max_retries = 3, the 4th consecutive failure
(times 0, 60, 180, 420 for the perpetually raising source) does remove the
RetryTask and process_retries makes no further automatic attempt at any
later time, but neither status ever becomes failed: the in-memory
FetchResult keeps status PENDING and the durable row keeps
status = pending with next_retry_at NULL — record_result never calls
mark_failed and nothing assigns FetchStatus.FAILED, although both are
defined and documented as the exhausted-retries transition. -/
theorem C1_exhaustion_no_failed_state :
    c1_s4.mgr.retry_queue = [] ∧
    (∀ t : Nat, process_retries alwaysFail c1_s4 t = (c1_s4, [])) ∧
    alGet c1_s4.mgr.results "github" =
      some { source := "github", success := false, item_count := 0,
             error_message := some "boom", timestamp := 420, retry_count := 3,
             status := FetchStatus.pending } ∧
    c1_s4.fdb.rows =
      [{ id := 1, source := "github", error_message := some "boom",
         retry_count := 3, last_try_at := some 420, next_retry_at := none,
         status := "pending", created_at := 0, updated_at := 420 }] := by
  refine ⟨by decide, ?_, by decide, by decide⟩
  intro t
  rfl

theorem filter_map_of_pred_inv {α : Type} (f : α → α) (p : α → Bool) (l : List α)
    (h : ∀ x, p (f x) = p x) :
    (l.map f).filter p = (l.filter p).map f := by
  induction l with
  | nil => rfl
  | cons x rest ih =>
    by_cases hx : p x = true
    · simp [List.filter_cons, h x, hx, ih]
    · simp [List.filter_cons, h x, hx, ih]

theorem rowsFor_save_failure_of_pending (db : FailureDB) (s : String) (now : Nat)
    (err : Option String) (rc : Nat) (nra : Option Nat) (r : FetchFailureRow)
    (hr : rowsFor db s = [r]) (hp : r.status = "pending") :
    rowsFor (save_failure db now s err rc nra).1 s =
      [{ r with error_message := err, retry_count := rc, last_try_at := some now,
                next_retry_at := nra, status := "pending", updated_at := now }] := by
  unfold rowsFor at hr
  have hg : get_by_source db s = some r := by
    unfold get_by_source
    rw [hr]
    rfl
  have hrs : (r.source == s) = true := by
    have hmem : r ∈ db.rows.filter (fun x => x.source == s) := by
      rw [hr]; exact List.mem_cons_self r []
    exact (List.mem_filter.mp hmem).2
  have hps : r.source = s := by simpa using hrs
  unfold save_failure
  rw [hg]
  unfold rowsFor
  rw [filter_map_of_pred_inv _ _ _ (fun x => by
    by_cases hc : (x.source == s && x.status == "pending") = true
    · simp only [hc, if_pos]
    · rw [if_neg hc])]
  rw [hr]
  have hcond : (r.source == s && r.status == "pending") = true := by
    simp [hps, hp]
  simp [hcond]
  intro hcon
  exact absurd hp (hcon hps)

theorem rowsFor_save_failure_of_empty (db : FailureDB) (s : String) (now : Nat)
    (err : Option String) (rc : Nat) (nra : Option Nat)
    (h0 : rowsFor db s = []) :
    rowsFor (save_failure db now s err rc nra).1 s =
      [{ id := db.next_id, source := s, error_message := err, retry_count := rc,
         last_try_at := some now, next_retry_at := nra, status := "pending",
         created_at := now, updated_at := now }] := by
  unfold rowsFor at h0
  have hg : get_by_source db s = none := by
    unfold get_by_source
    rw [h0]
    rfl
  unfold save_failure
  rw [hg]
  unfold rowsFor
  rw [List.filter_append, h0]
  simp

theorem pendingCount_eq (db : FailureDB) (s : String) :
    pendingCount db s =
      ((rowsFor db s).filter (fun r => r.status == "pending")).length := by
  unfold pendingCount rowsFor
  rw [List.filter_filter]
  congr 1
  apply List.filter_congr
  intro x _
  exact Bool.and_comm _ _

theorem apply_failures_keeps_single_pending (s : String) (calls : List FailureCall) :
    ∀ (db : FailureDB) (r : FetchFailureRow), rowsFor db s = [r] → r.status = "pending" →
      ∃ r2, rowsFor (apply_failures db s calls) s = [r2] ∧ r2.status = "pending" := by
  induction calls with
  | nil => exact fun db r h hp => ⟨r, h, hp⟩
  | cons c rest ih =>
    intro db r h hp
    have hstep := rowsFor_save_failure_of_pending db s c.now c.err c.rc c.nra r h hp
    exact ih _ _ hstep rfl

theorem gbs_foldl_some (l : List FetchFailureRow) :
    ∀ b : FetchFailureRow, ∃ x,
      l.foldl (fun acc r =>
        match acc with
        | none => some r
        | some b => if b.created_at ≤ r.created_at then some r else some b) (some b) = some x := by
  induction l with
  | nil => exact fun b => ⟨b, rfl⟩
  | cons r rest ih =>
    intro b
    by_cases h : b.created_at ≤ r.created_at
    · simpa [List.foldl, h] using ih r
    · simpa [List.foldl, h] using ih b

theorem get_by_source_some_of_ne (db : FailureDB) (s : String)
    (h : rowsFor db s ≠ []) : ∃ x, get_by_source db s = some x := by
  unfold rowsFor at h
  unfold get_by_source
  match hl : db.rows.filter (fun r => r.source == s) with
  | [] => exact absurd hl h
  | hd :: tl =>
    rw [hl]
    exact gbs_foldl_some tl hd

/-- Claim C2 counterexample: after a failure episode for zhihu ended in a
terminal row (save_failure then mark_success), a new failure finds the
terminal row through get_by_source, takes the UPDATE branch whose WHERE
clause matches only pending rows, and therefore creates no pending row:
the pending count is 0, not the claimed 1. -/
theorem C2_counterexample :
    pendingCount ((save_failure c2_termdb 20 "zhihu" (some "e2") 0 (some 80)).1)
        "zhihu" = 0 ∧
    ¬ pendingCount ((save_failure c2_termdb 20 "zhihu" (some "e2") 0 (some 80)).1)
        "zhihu" = 1 := by decide

/-- Claim C2 (amended): save_failure updates the pending row in place when
the source already has one, and inserts a fresh pending row only when no
row of any status exists for the source; so after any positive number of
consecutive failures for a source that starts with no FailureRecord at
all, exactly one pending row exists — but once an earlier episode left a
terminal (success or failed) row, a later failure matches that terminal
row, its UPDATE touches only pending rows, and the pending count stays 0. -/
theorem C2_single_pending_amended (db db2 : FailureDB) (s : String)
    (calls : List FailureCall) (now : Nat) (err : Option String) (rc : Nat)
    (nra : Option Nat)
    (h0 : rowsFor db s = []) (hne : calls ≠ [])
    (hterm : ∀ r ∈ db2.rows, r.source = s → r.status ≠ "pending")
    (hex : rowsFor db2 s ≠ []) :
    pendingCount (apply_failures db s calls) s = 1 ∧
    pendingCount (save_failure db2 now s err rc nra).1 s = 0 := by
  constructor
  · match calls, hne with
    | c :: rest, _ =>
      have h1 := rowsFor_save_failure_of_empty db s c.now c.err c.rc c.nra h0
      obtain ⟨r2, h2, hp2⟩ :=
        apply_failures_keeps_single_pending s rest
          ((save_failure db c.now s c.err c.rc c.nra).1) _ h1 rfl
      have : apply_failures db s (c :: rest) =
          apply_failures ((save_failure db c.now s c.err c.rc c.nra).1) s rest := rfl
      rw [this, pendingCount_eq, h2]
      simp [hp2]
  · obtain ⟨x, hx⟩ := get_by_source_some_of_ne db2 s hex
    unfold save_failure
    rw [hx]
    unfold pendingCount
    rw [List.length_eq_zero]
    rw [List.filter_eq_nil_iff]
    intro a ha
    simp only [List.mem_map] at ha
    obtain ⟨b, hb, hab⟩ := ha
    have hbp : (b.source == s && b.status == "pending") = false := by
      by_cases hsb : b.source = s
      · have := hterm b hb hsb
        simp [hsb, this]
      · simp [hsb]
    rw [← hab, if_neg (by simp [hbp])]
    simp only [Bool.and_eq_true, beq_iff_eq, not_and]
    intro h1 h2
    rw [Bool.and_eq_false_iff] at hbp
    rcases hbp with h | h
    · simp [h1] at h
    · simp [h2] at h

/-- Witness for the amended C2: two consecutive failures from an empty
ledger give exactly one pending row; a failure after a success episode
gives zero. -/
theorem C2_single_pending_amended_witness :
    pendingCount (apply_failures {} "zhihu" c2_calls) "zhihu" = 1 ∧
    pendingCount ((save_failure c2_termdb 20 "zhihu" (some "e2") 0 (some 80)).1)
        "zhihu" = 0 :=
  C2_single_pending_amended {} c2_termdb "zhihu" c2_calls 20 (some "e2") 0
    (some 80) rfl (by decide) (by decide) (by decide)

theorem retry_source_none (fetchers : Fetchers) (st : SchedSt) (now : Nat)
    (source : String) (hf : alGet fetchers source = none) :
    retry_source fetchers st now source = (st, none) := by
  unfold retry_source
  rw [hf]

theorem retry_source_ok (fetchers : Fetchers) (st : SchedSt) (now : Nat)
    (source : String) (items : List TrendingItem)
    (hf : alGet fetchers source = some (Except.ok items)) :
    retry_source fetchers st now source =
      (record_result
        { st with mgr := { st.mgr with retry_queue := alDel st.mgr.retry_queue source } }
        now
        { source := source, success := decide (0 < items.length),
          item_count := items.length, error_message := none, timestamp := now,
          retry_count := get_retry_count st.mgr source,
          status := FetchStatus.success },
       some { source := source, success := decide (0 < items.length),
              item_count := items.length, error_message := none, timestamp := now,
              retry_count := get_retry_count st.mgr source,
              status := FetchStatus.success }) := by
  unfold retry_source
  rw [hf]
  rfl

theorem retry_source_err (fetchers : Fetchers) (st : SchedSt) (now : Nat)
    (source : String) (e : String)
    (hf : alGet fetchers source = some (Except.error e)) :
    retry_source fetchers st now source =
      (record_result
        { st with mgr := { st.mgr with retry_queue := alDel st.mgr.retry_queue source } }
        now
        { source := source, success := false, item_count := 0,
          error_message := some e, timestamp := now,
          retry_count := get_retry_count st.mgr source + 1,
          status := FetchStatus.pending },
       some { source := source, success := false, item_count := 0,
              error_message := some e, timestamp := now,
              retry_count := get_retry_count st.mgr source + 1,
              status := FetchStatus.pending }) := by
  unfold retry_source
  rw [hf]
  rfl

theorem empty_fetch_iter_invariant (s : String) (st : SchedSt) (times : Nat → Nat)
    (r : FetchResult) (h : alGet st.mgr.results s = some r) :
    ∀ n, ∃ rn : FetchResult,
      alGet (empty_fetch_iter s times n st).mgr.results s = some rn ∧
      rn.retry_count = r.retry_count ∧
      (empty_fetch_iter s times n st).mgr.config = st.mgr.config := by
  intro n
  induction n with
  | zero => exact ⟨r, h, rfl, rfl⟩
  | succ m ih =>
    obtain ⟨rm, hm, hrc, hcfg⟩ := ih
    have hf : alGet (emptyFetcher s) s = some (Except.ok ([] : List TrendingItem)) := by
      simp [alGet, emptyFetcher]
    have hstep := retry_source_ok (emptyFetcher s) (empty_fetch_iter s times m st)
      (times m) s [] hf
    have hit : empty_fetch_iter s times (m + 1) st =
        (retry_source (emptyFetcher s) (empty_fetch_iter s times m st) (times m) s).1 := rfl
    refine ⟨{ source := s, success := decide (0 < List.length ([] : List TrendingItem)),
              item_count := List.length ([] : List TrendingItem), error_message := none,
              timestamp := times m,
              retry_count := get_retry_count (empty_fetch_iter s times m st).mgr s,
              status := FetchStatus.success }, ?_, ?_, ?_⟩
    · rw [hit, hstep]
      rw [record_result_results]
      exact alGet_alSet_self _ _ _
    · show get_retry_count (empty_fetch_iter s times m st).mgr s = r.retry_count
      unfold get_retry_count
      rw [hm]
      exact hrc
    · rw [hit, hstep, record_result_config]
      exact hcfg

/-- Claim C9 (confirmed): when a registered fetcher returns an empty list
without raising, each retry attempt builds a FetchResult with
success = False, error_message = None, status = SUCCESS and the previous
retry_count unchanged, and record_result re-enqueues a RetryTask with that
same retry_count, so across any number of further attempts the source is
retried again and again with the constant delay calculate_delay of that
retry_count and never reaches the exhausted (failed) state. -/
theorem C9_empty_fetch_retries_forever (s : String) (st : SchedSt)
    (times : Nat → Nat) (r : FetchResult)
    (h : alGet st.mgr.results s = some r)
    (hlt : r.retry_count < st.mgr.config.max_retries) (n : Nat) :
    (retry_source (emptyFetcher s) (empty_fetch_iter s times n st) (times n) s).2 =
      some { source := s, success := false, item_count := 0, error_message := none,
             timestamp := times n, retry_count := r.retry_count,
             status := FetchStatus.success } ∧
    alGet (empty_fetch_iter s times (n + 1) st).mgr.results s =
      some { source := s, success := false, item_count := 0, error_message := none,
             timestamp := times n, retry_count := r.retry_count,
             status := FetchStatus.success } ∧
    alGet (empty_fetch_iter s times (n + 1) st).mgr.retry_queue s =
      some { source := s, retry_count := r.retry_count,
             next_retry_at := times n + st.mgr.config.calculate_delay r.retry_count,
             error_message := none, created_at := times n } := by
  obtain ⟨rn, hm, hrc, hcfg⟩ := empty_fetch_iter_invariant s st times r h n
  have hprev : get_retry_count (empty_fetch_iter s times n st).mgr s = r.retry_count := by
    unfold get_retry_count
    rw [hm]
    exact hrc
  have hf : alGet (emptyFetcher s) s = some (Except.ok ([] : List TrendingItem)) := by
    simp [alGet, emptyFetcher]
  have hstep := retry_source_ok (emptyFetcher s) (empty_fetch_iter s times n st)
    (times n) s [] hf
  have hit : empty_fetch_iter s times (n + 1) st =
      (retry_source (emptyFetcher s) (empty_fetch_iter s times n st) (times n) s).1 := rfl
  refine ⟨?_, ?_, ?_⟩
  · rw [hstep]
    simp [hprev]
  · rw [hit, hstep, record_result_results]
    have := alGet_alSet_self
      ((empty_fetch_iter s times n st).mgr.results) s
      { source := s, success := decide (0 < List.length ([] : List TrendingItem)),
        item_count := List.length ([] : List TrendingItem), error_message := none,
        timestamp := times n,
        retry_count := get_retry_count (empty_fetch_iter s times n st).mgr s,
        status := FetchStatus.success }
    rw [this, hprev]
    rfl
  · rw [hit, hstep]
    rw [record_result_queue_of_fail _ _ _ rfl
      (by simpa [hprev, hcfg] using hlt)]
    have := alGet_alSet_self
      (alDel (empty_fetch_iter s times n st).mgr.retry_queue s) s
      { source := s,
        retry_count := get_retry_count (empty_fetch_iter s times n st).mgr s,
        next_retry_at := times n +
          ((empty_fetch_iter s times n st).mgr.config.calculate_delay
            (get_retry_count (empty_fetch_iter s times n st).mgr s)),
        error_message := none, created_at := times n }
    rw [this, hprev, hcfg]

/-- Witness for C9: starting from a zhihu failure with retry_count 1, the
second attempt against the empty-returning fetcher behaves as stated. -/
theorem C9_empty_fetch_retries_forever_witness :
    (retry_source (emptyFetcher "zhihu")
        (empty_fetch_iter "zhihu" (fun i => 60 + 60 * i) 1 c9_st)
        (60 + 60 * 1) "zhihu").2 =
      some { source := "zhihu", success := false, item_count := 0,
             error_message := none, timestamp := 60 + 60 * 1,
             retry_count := c9_r.retry_count, status := FetchStatus.success } ∧
    alGet (empty_fetch_iter "zhihu" (fun i => 60 + 60 * i) (1 + 1)
        c9_st).mgr.results "zhihu" =
      some { source := "zhihu", success := false, item_count := 0,
             error_message := none, timestamp := 60 + 60 * 1,
             retry_count := c9_r.retry_count, status := FetchStatus.success } ∧
    alGet (empty_fetch_iter "zhihu" (fun i => 60 + 60 * i) (1 + 1)
        c9_st).mgr.retry_queue "zhihu" =
      some { source := "zhihu", retry_count := c9_r.retry_count,
             next_retry_at := 60 + 60 * 1 +
               c9_st.mgr.config.calculate_delay c9_r.retry_count,
             error_message := none, created_at := 60 + 60 * 1 } :=
  C9_empty_fetch_retries_forever "zhihu" c9_st (fun i => 60 + 60 * i) c9_r
    rfl (by decide) 1

theorem tick_task_invoked (t : SchedTask) (now : SimpleTime)
    (o : Except String Unit) :
    (tick_task t now o).2 = (t.enabled && should_run t now) := by
  unfold tick_task
  by_cases h : (t.enabled && should_run t now) = true
  · rw [if_pos h, h]
    cases o <;> rfl
  · rw [if_neg h]
    rw [Bool.not_eq_true] at h
    rw [h]

/-- Claim C8 (confirmed): a raised Collector exception is caught at the
point of invocation and becomes a FetchResult with success = False
carrying the message, both on the scheduled path (_fetch_source) and on
the retry path (_retry_source); the scheduler tick is a total function and
which tasks it dispatches does not depend on any work-function outcome, so
a raising task never prevents the other tasks of the same tick. -/
theorem C8_exceptions_contained (tasks : List SchedTask) (now : SimpleTime)
    (o1 o2 : String → Except String Unit) (fetchers : Fetchers) (st : SchedSt)
    (tnow : Nat) (s e : String) :
    (run_tick tasks now o1).2 = (run_tick tasks now o2).2 ∧
    (alGet fetchers s = some (Except.error e) →
      fetch_source fetchers tnow s =
        some { source := s, success := false, item_count := 0,
               error_message := some e, timestamp := tnow, retry_count := 0,
               status := FetchStatus.pending }) ∧
    (alGet fetchers s = some (Except.error e) →
      (retry_source fetchers st tnow s).2 =
        some { source := s, success := false, item_count := 0,
               error_message := some e, timestamp := tnow,
               retry_count := get_retry_count st.mgr s + 1,
               status := FetchStatus.pending }) := by
  refine ⟨?_, ?_, ?_⟩
  · show (tasks.filter (fun t => (tick_task t now (o1 t.name)).2)).map (fun t => t.name) =
        (tasks.filter (fun t => (tick_task t now (o2 t.name)).2)).map (fun t => t.name)
    congr 1
    apply List.filter_congr
    intro t _
    rw [tick_task_invoked, tick_task_invoked]
  · intro h
    unfold fetch_source
    rw [h]
  · intro h
    rw [retry_source_err fetchers st tnow s e h]

/-- Witness for C8 at one enabled due task and the raising github fetcher. -/
theorem C8_exceptions_contained_witness :
    (run_tick [c3_task] c3_now (fun _ => Except.error "boom")).2 =
      (run_tick [c3_task] c3_now (fun _ => Except.ok ())).2 ∧
    fetch_source alwaysFail 0 "github" =
      some { source := "github", success := false, item_count := 0,
             error_message := some "boom", timestamp := 0, retry_count := 0,
             status := FetchStatus.pending } ∧
    (retry_source alwaysFail freshSt 0 "github").2 =
      some { source := "github", success := false, item_count := 0,
             error_message := some "boom", timestamp := 0,
             retry_count := get_retry_count freshSt.mgr "github" + 1,
             status := FetchStatus.pending } := by
  have h := C8_exceptions_contained [c3_task] c3_now (fun _ => Except.error "boom")
    (fun _ => Except.ok ()) alwaysFail freshSt 0 "github" "boom"
  exact ⟨h.1, h.2.1 rfl, h.2.2 rfl⟩

/-- Claim C7 (confirmed): force_retry invokes the registered fetcher at
once — it needs no due RetryTask and no pending record, and ignores any
scheduled next_retry_at — recording a result stamped with the invocation
time; on a successful fetch the RetryTask of the source is gone from the
queue; and force_retry_source returns true exactly when the forced attempt
produced at least one item. -/
theorem C7_force_retry_semantics (fetchers : Fetchers) (st : SchedSt)
    (tdb : TrendingDB) (now today : Nat) (source : String) :
    (force_retry_source fetchers st tdb now today source).2.2 =
      (match alGet fetchers source with
       | some (Except.ok items) => decide (0 < items.length)
       | _ => false) ∧
    (∀ outcome, alGet fetchers source = some outcome →
      ∃ r : FetchResult, (force_retry fetchers st now source).2 = some r ∧
        r.timestamp = now ∧
        alGet (force_retry fetchers st now source).1.mgr.results source = some r) ∧
    (∀ items, alGet fetchers source = some (Except.ok items) → 0 < items.length →
      alGet (force_retry fetchers st now source).1.mgr.retry_queue source = none) := by
  cases halg : alGet fetchers source with
  | none =>
    have hr := retry_source_none fetchers st now source halg
    refine ⟨?_, ?_, ?_⟩
    · unfold force_retry_source force_retry
      rw [hr]
    · intro outcome hco
      exact absurd hco (by simp)
    · intro items hco
      exact absurd hco (by simp)
  | some outcome =>
    cases outcome with
    | ok items =>
      have hr := retry_source_ok fetchers st now source items halg
      refine ⟨?_, ?_, ?_⟩
      · unfold force_retry_source force_retry
        rw [hr]
        by_cases hlen : 0 < items.length
        · simp [decide_eq_true hlen]
        · simp [decide_eq_false hlen]
      · intro o ho
        refine ⟨{ source := source, success := decide (0 < items.length),
                  item_count := items.length, error_message := none,
                  timestamp := now, retry_count := get_retry_count st.mgr source,
                  status := FetchStatus.success }, ?_, rfl, ?_⟩
        · unfold force_retry
          rw [hr]
        · unfold force_retry
          rw [hr, record_result_results]
          exact alGet_alSet_self _ _ _
      · intro its hco hlen
        have hits : its = items := by
          injection hco with hco2
          injection hco2 with hco3
          exact hco3.symm
        subst hits
        unfold force_retry
        rw [hr]
        rw [record_result_queue_of_success _ _ _ (by
          show decide (0 < its.length) = true
          exact decide_eq_true hlen)]
        exact alGet_alDel_self _ _
    | error e =>
      have hr := retry_source_err fetchers st now source e halg
      refine ⟨?_, ?_, ?_⟩
      · unfold force_retry_source force_retry
        rw [hr]
        rfl
      · intro o ho
        refine ⟨{ source := source, success := false, item_count := 0,
                  error_message := some e, timestamp := now,
                  retry_count := get_retry_count st.mgr source + 1,
                  status := FetchStatus.pending }, ?_, rfl, ?_⟩
        · unfold force_retry
          rw [hr]
        · unfold force_retry
          rw [hr, record_result_results]
          exact alGet_alSet_self _ _ _
      · intro its hco hlen
        exact absurd hco (by simp)

/-- Witness for C7: forcing zhihu with a two-item fetcher from a fresh
state (no pending record, no RetryTask) returns true. -/
theorem C7_force_retry_semantics_witness :
    (force_retry_source okFetcher freshSt [] 7 5 "zhihu").2.2 = true ∧
    (∃ r : FetchResult, (force_retry okFetcher freshSt 7 "zhihu").2 = some r ∧
      r.timestamp = 7 ∧
      alGet (force_retry okFetcher freshSt 7 "zhihu").1.mgr.results "zhihu" = some r) ∧
    alGet (force_retry okFetcher freshSt 7 "zhihu").1.mgr.retry_queue "zhihu" = none := by
  have h := C7_force_retry_semantics okFetcher freshSt [] 7 5 "zhihu"
  refine ⟨?_, h.2.1 (Except.ok c4_itemsB) rfl, h.2.2 c4_itemsB rfl (by decide)⟩
  rw [h.1]
  rfl

theorem insert_all_append (today : Nat) (items : List TrendingItem) :
    ∀ db : TrendingDB,
      (∀ it ∈ items, ∀ row ∈ db,
        keyMatch it.source it.url (it.fetched_day.getD today) row = false) →
      (items.map (fun it => it.url)).Nodup →
      insert_all today db items = db ++ items.map (mkRow today) := by
  induction items with
  | nil =>
    intro db _ _
    simp [insert_all]
  | cons it rest ih =>
    intro db hcol hnd
    have hany : db.any (keyMatch it.source it.url (it.fetched_day.getD today)) = false := by
      rw [List.any_eq_false]
      intro row hrow
      rw [hcol it (List.mem_cons_self _ _) row hrow]
      simp
    have hins : insert_item today db it = db ++ [mkRow today it] := by
      unfold insert_item mkRow
      dsimp only
      rw [hany]
      rfl
    have hstep : insert_all today db (it :: rest) =
        insert_all today (db ++ [mkRow today it]) rest := by
      show List.foldl (insert_item today) db (it :: rest) = _
      rw [List.foldl_cons, hins]
      rfl
    have hnd2 : it.url ∉ rest.map (fun x => x.url) ∧
        (rest.map (fun x => x.url)).Nodup := by
      simp only [List.map_cons] at hnd
      exact List.nodup_cons.mp hnd
    have hnotin : it.url ∉ rest.map (fun x => x.url) := hnd2.1
    rw [hstep, ih (db ++ [mkRow today it]) ?_ ?_]
    · simp
    · intro it2 hit2 row hrow
      rcases List.mem_append.mp hrow with hl | hl
      · exact hcol it2 (List.mem_cons_of_mem _ hit2) row hl
      · have hrow2 : row = mkRow today it := by simpa using hl
        subst hrow2
        have hurl : it.url ≠ it2.url := by
          intro hh
          exact hnotin (hh ▸ List.mem_map_of_mem (fun x => x.url) hit2)
        have hb : ((mkRow today it).url == it2.url) = false :=
          beq_eq_false_iff_ne.mpr (by simpa [mkRow] using hurl)
        simp [keyMatch, hb]
    · exact hnd2.2

theorem foldl_dedup_mem (l : List String) :
    ∀ acc : List String, (∀ x ∈ l, x ∈ acc) →
      l.foldl (fun acc s => if s ∈ acc then acc else acc ++ [s]) acc = acc := by
  induction l with
  | nil =>
    intro acc _
    rfl
  | cons x rest ih =>
    intro acc hall
    rw [List.foldl_cons, if_pos (hall x (List.mem_cons_self _ _))]
    exact ih acc (fun y hy => hall y (List.mem_cons_of_mem _ hy))

theorem firstDedup_const (s : String) :
    ∀ l : List String, l ≠ [] → (∀ x ∈ l, x = s) → firstDedup l = [s] := by
  intro l hne hall
  match l, hne with
  | x :: rest, _ =>
    have hx : x = s := hall x (List.mem_cons_self _ _)
    subst hx
    unfold firstDedup
    rw [List.foldl_cons, if_neg (by simp)]
    exact foldl_dedup_mem rest [x] (fun y hy => by
      rw [hall y (List.mem_cons_of_mem _ hy)]
      exact List.mem_singleton.mpr rfl)

theorem filter_all_false {α : Type} (p : α → Bool) (l : List α)
    (h : ∀ x ∈ l, p x = false) : l.filter p = [] := by
  rw [List.filter_eq_nil_iff]
  intro a ha
  simp [h a ha]

theorem filter_filter_of_imp {α : Type} (p q : α → Bool) (l : List α)
    (h : ∀ x, q x = true → p x = true) :
    (l.filter p).filter q = l.filter q := by
  induction l with
  | nil => rfl
  | cons x rest ih =>
    by_cases hq : q x = true
    · have hp := h x hq
      simp [List.filter_cons, hp, hq, ih]
    · by_cases hp : p x = true
      · simp [List.filter_cons, hp, hq, ih]
      · rw [Bool.not_eq_true] at hp hq
        simp [List.filter_cons, hp, hq, ih]

theorem refresh_items_single_source (db : TrendingDB) (items : List TrendingItem)
    (s : String) (today : Nat) (hne : items ≠ [])
    (hsrc : ∀ it ∈ items, it.source = s)
    (hday : ∀ it ∈ items, it.fetched_day.getD today = today)
    (hnd : (items.map (fun it => it.url)).Nodup) :
    (refresh_items db items today).1 =
      db.filter (fun r => !(r.source == s && r.day == today)) ++
        items.map (fun it =>
          { source := it.source, title := it.title, url := it.url, day := today }) := by
  unfold refresh_items
  rw [if_neg (by simpa using hne)]
  rw [firstDedup_const s (items.map (fun it => it.source))
      (by simpa using hne)
      (by
        intro x hx
        obtain ⟨it, hit, rfl⟩ := List.mem_map.mp hx
        exact hsrc it hit)]
  rw [List.foldl_cons, List.foldl_nil]
  dsimp only
  have hfilt : items.filter (fun it => it.source == s) = items :=
    List.filter_eq_self.mpr (fun it hit => by simp [hsrc it hit])
  rw [hfilt]
  rw [insert_all_append today items
      (db.filter (fun r => !(r.source == s && r.day == today))) ?_ hnd]
  · congr 1
    apply List.map_congr_left
    intro it hit
    simp [mkRow, hday it hit]
  · intro it hit row hrow
    have hmem := List.mem_filter.mp hrow
    have hpf : (row.source == s && row.day == today) = false := by
      cases hb : (row.source == s && row.day == today) with
      | false => rfl
      | true =>
        have h2 := hmem.2
        simp only at h2
        rw [hb] at h2
        simp at h2
    rw [hsrc it hit, hday it hit]
    unfold keyMatch
    cases hsb : (row.source == s) with
    | false => simp [hsb]
    | true =>
      have hdb : (row.day == today) = false := by
        rw [hsb] at hpf
        simpa using hpf
      simp [hdb]

theorem mem_filter_not_false {α : Type} (p : α → Bool) (l : List α) :
    ∀ x ∈ l.filter (fun y => !(p y)), p x = false := by
  intro x hx
  have h2 := (List.mem_filter.mp hx).2
  simp only at h2
  cases hpx : p x with
  | false => rfl
  | true =>
    rw [hpx] at h2
    simp at h2

/-- Claim C4 counterexample: refresh_items returns 0 at once for an empty
item list, deleting nothing; so after refresh with one github item and a
second refresh with no items for the same source and day, the stored rows
for (github, day 5) are still those of the first call — not exactly those
of the second call, which are none. -/
theorem C4_counterexample :
    ((refresh_items (refresh_items [] c4_itemsA 5).1 [] 5).1).filter
        (fun r => r.source == "github" && r.day == 5) =
      [{ source := "github", title := "a1", url := "u1", day := 5 }] ∧
    ([] : List TrendingItem).map (mkRow 5) = [] ∧
    ¬ ((refresh_items (refresh_items [] c4_itemsA 5).1 [] 5).1).filter
        (fun r => r.source == "github" && r.day == 5) = [] := by decide

/-- Claim C4 (amended): for a nonempty second item list, all of one source
and dated the refresh day, with distinct urls, the second refresh deletes
every stored row for (source, day) and inserts exactly its own items, so
the stored rows for that (source, day) after the two sequential calls are
exactly those of the second call and every other row is untouched; a
refresh with an empty item list, however, is a no-op that keeps the rows
of the first call. -/
theorem C4_refresh_exact_second (db : TrendingDB) (itemsA itemsB : List TrendingItem)
    (s : String) (today : Nat)
    (hne : itemsB ≠ [])
    (hsrc : ∀ it ∈ itemsB, it.source = s)
    (hday : ∀ it ∈ itemsB, it.fetched_day.getD today = today)
    (hnd : (itemsB.map (fun it => it.url)).Nodup) :
    ((refresh_items (refresh_items db itemsA today).1 itemsB today).1).filter
        (fun r => r.source == s && r.day == today) =
      itemsB.map (fun it =>
        { source := it.source, title := it.title, url := it.url, day := today }) ∧
    ((refresh_items (refresh_items db itemsA today).1 itemsB today).1).filter
        (fun r => !(r.source == s && r.day == today)) =
      ((refresh_items db itemsA today).1).filter
        (fun r => !(r.source == s && r.day == today)) := by
  rw [refresh_items_single_source (refresh_items db itemsA today).1 itemsB s today
    hne hsrc hday hnd]
  have hmap : ∀ row ∈ itemsB.map (fun it =>
      ({ source := it.source, title := it.title, url := it.url, day := today } : StoredRow)),
      (row.source == s && row.day == today) = true := by
    intro row hrow
    obtain ⟨it, hit, rfl⟩ := List.mem_map.mp hrow
    simp [hsrc it hit]
  constructor
  · rw [List.filter_append]
    have h1 : (((refresh_items db itemsA today).1.filter
        (fun r => !(r.source == s && r.day == today))).filter
        (fun r => r.source == s && r.day == today)) = [] :=
      filter_all_false _ _ (mem_filter_not_false _ _)
    have h2 : ((itemsB.map (fun it =>
        ({ source := it.source, title := it.title, url := it.url,
           day := today } : StoredRow))).filter
        (fun r => r.source == s && r.day == today)) =
        itemsB.map (fun it =>
          ({ source := it.source, title := it.title, url := it.url,
             day := today } : StoredRow)) :=
      List.filter_eq_self.mpr hmap
    rw [h1, h2]
    simp
  · rw [List.filter_append]
    have h1 : (((refresh_items db itemsA today).1.filter
        (fun r => !(r.source == s && r.day == today))).filter
        (fun r => !(r.source == s && r.day == today))) =
        (refresh_items db itemsA today).1.filter
          (fun r => !(r.source == s && r.day == today)) :=
      List.filter_eq_self.mpr (fun x hx => (List.mem_filter.mp hx).2)
    have h2 : ((itemsB.map (fun it =>
        ({ source := it.source, title := it.title, url := it.url,
           day := today } : StoredRow))).filter
        (fun r => !(r.source == s && r.day == today))) = [] :=
      filter_all_false _ _ (fun x hx => by
        show (!(x.source == s && x.day == today)) = false
        rw [hmap x hx]
        rfl)
    rw [h1, h2]
    simp

/-- Witness for the amended C4 at two concrete github item lists on day 5. -/
theorem C4_refresh_exact_second_witness :
    ((refresh_items (refresh_items [] c4_itemsA 5).1 c4_itemsB 5).1).filter
        (fun r => r.source == "github" && r.day == 5) =
      c4_itemsB.map (fun it =>
        { source := it.source, title := it.title, url := it.url, day := 5 }) ∧
    ((refresh_items (refresh_items [] c4_itemsA 5).1 c4_itemsB 5).1).filter
        (fun r => !(r.source == "github" && r.day == 5)) =
      ((refresh_items [] c4_itemsA 5).1).filter
        (fun r => !(r.source == "github" && r.day == 5)) :=
  C4_refresh_exact_second [] c4_itemsA c4_itemsB "github" 5 (by decide)
    (by decide) (by decide) (by decide)

/-- Claim C6 (confirmed): in a cycle where source A raises and source B
returns a nonempty item list (of source B, dated the cycle day, distinct
urls), only B contributes items, so the single refresh of the cycle
replaces exactly the rows of (B, today) with B's items, while every row
outside (B, today) — A's prior snapshot included — is unchanged; no
half-fetched result is committed. -/
theorem C6_partial_failure_isolation (A B e : String) (lB : List TrendingItem)
    (st : SchedSt) (tdb : TrendingDB) (today now : Nat)
    (hAB : A ≠ B) (hne : lB ≠ [])
    (hsrc : ∀ it ∈ lB, it.source = B)
    (hday : ∀ it ∈ lB, it.fetched_day.getD today = today)
    (hnd : (lB.map (fun it => it.url)).Nodup) :
    ((fetch_all_trending [(A, Except.error e), (B, Except.ok lB)] [A, B]
        st tdb today now).2).filter
        (fun r => r.source == B && r.day == today) =
      lB.map (fun it =>
        { source := it.source, title := it.title, url := it.url, day := today }) ∧
    ((fetch_all_trending [(A, Except.error e), (B, Except.ok lB)] [A, B]
        st tdb today now).2).filter
        (fun r => !(r.source == B && r.day == today)) =
      tdb.filter (fun r => !(r.source == B && r.day == today)) ∧
    ((fetch_all_trending [(A, Except.error e), (B, Except.ok lB)] [A, B]
        st tdb today now).2).filter (fun r => r.source == A) =
      tdb.filter (fun r => r.source == A) := by
  have hab : (A == B) = false := beq_eq_false_iff_ne.mpr hAB
  have hba : (B == A) = false := beq_eq_false_iff_ne.mpr (Ne.symm hAB)
  have hlen : 0 < lB.length := List.length_pos.mpr hne
  have hie : lB.isEmpty = false := by
    cases lB with
    | nil => exact absurd rfl hne
    | cons a l => rfl
  have htdb : (fetch_all_trending [(A, Except.error e), (B, Except.ok lB)] [A, B]
      st tdb today now).2 = (refresh_items tdb lB today).1 := by
    unfold fetch_all_trending fetch_source get_items_from_result
    simp [alGet, hab, hAB, hne, decide_eq_true hlen, hie]
  rw [htdb,
    refresh_items_single_source tdb lB B today hne hsrc hday hnd]
  have hmap : ∀ row ∈ lB.map (fun it =>
      ({ source := it.source, title := it.title, url := it.url,
         day := today } : StoredRow)),
      (row.source == B && row.day == today) = true := by
    intro row hrow
    obtain ⟨it, hit, rfl⟩ := List.mem_map.mp hrow
    simp [hsrc it hit]
  refine ⟨?_, ?_, ?_⟩
  · rw [List.filter_append]
    have h1 : ((tdb.filter (fun r => !(r.source == B && r.day == today))).filter
        (fun r => r.source == B && r.day == today)) = [] :=
      filter_all_false _ _ (mem_filter_not_false _ _)
    have h2 : ((lB.map (fun it =>
        ({ source := it.source, title := it.title, url := it.url,
           day := today } : StoredRow))).filter
        (fun r => r.source == B && r.day == today)) =
        lB.map (fun it =>
          ({ source := it.source, title := it.title, url := it.url,
             day := today } : StoredRow)) :=
      List.filter_eq_self.mpr hmap
    rw [h1, h2]
    simp
  · rw [List.filter_append]
    have h1 : ((tdb.filter (fun r => !(r.source == B && r.day == today))).filter
        (fun r => !(r.source == B && r.day == today))) =
        tdb.filter (fun r => !(r.source == B && r.day == today)) :=
      List.filter_eq_self.mpr (fun x hx => (List.mem_filter.mp hx).2)
    have h2 : ((lB.map (fun it =>
        ({ source := it.source, title := it.title, url := it.url,
           day := today } : StoredRow))).filter
        (fun r => !(r.source == B && r.day == today))) = [] :=
      filter_all_false _ _ (fun x hx => by
        show (!(x.source == B && x.day == today)) = false
        rw [hmap x hx]
        rfl)
    rw [h1, h2]
    simp
  · rw [List.filter_append]
    have h1 : ((tdb.filter (fun r => !(r.source == B && r.day == today))).filter
        (fun r => r.source == A)) = tdb.filter (fun r => r.source == A) :=
      filter_filter_of_imp _ _ tdb (fun x hqx => by
        have hxa : x.source = A := by simpa using hqx
        show (!(x.source == B && x.day == today)) = true
        rw [hxa, hab]
        rfl)
    have h2 : ((lB.map (fun it =>
        ({ source := it.source, title := it.title, url := it.url,
           day := today } : StoredRow))).filter (fun r => r.source == A)) = [] :=
      filter_all_false _ _ (fun x hx => by
        obtain ⟨it, hit, rfl⟩ := List.mem_map.mp hx
        show (it.source == A) = false
        rw [hsrc it hit]
        exact hba)
    rw [h1, h2]
    simp

/-- Witness for C6: github raising, zhihu succeeding with one item, prior
github snapshot from day 4 untouched and zhihu snapshot for day 5 written. -/
theorem C6_partial_failure_isolation_witness :
    ((fetch_all_trending [("github", Except.error "boom"), ("zhihu", Except.ok c6_items)]
        ["github", "zhihu"] freshSt c6_tdb 5 9).2).filter
        (fun r => r.source == "zhihu" && r.day == 5) =
      c6_items.map (fun it =>
        { source := it.source, title := it.title, url := it.url, day := 5 }) ∧
    ((fetch_all_trending [("github", Except.error "boom"), ("zhihu", Except.ok c6_items)]
        ["github", "zhihu"] freshSt c6_tdb 5 9).2).filter
        (fun r => !(r.source == "zhihu" && r.day == 5)) =
      c6_tdb.filter (fun r => !(r.source == "zhihu" && r.day == 5)) ∧
    ((fetch_all_trending [("github", Except.error "boom"), ("zhihu", Except.ok c6_items)]
        ["github", "zhihu"] freshSt c6_tdb 5 9).2).filter
        (fun r => r.source == "github") =
      c6_tdb.filter (fun r => r.source == "github") :=
  C6_partial_failure_isolation "github" "zhihu" "boom" c6_items freshSt c6_tdb 5 9
    (by decide) (by decide) (by decide) (by decide) (by decide)
